import Mathlib

/-!
Shallow embedding of the tax-fitter core (packages/core/src/calculate.ts and
packages/core/src/types.ts), together with proofs about its adjustment solver.

Amounts are integers in the smallest currency unit (JS numbers used integrally),
modelled as Int.  The tax rate is a rational number, modelled as Rat: the spec
declares taxRate a rational in [0, 1] and defines the raw tax as the exact
product amount * rate, with Math.floor, Math.ceil and Math.round picking the
integer tax amount.  Math.round on JS numbers is round-half-toward-positive-
infinity, which on rationals is the floor of x + 1/2.

The repository contains two versions of calculate.ts with the same exported
name calculateAdjustment: a binary-search implementation and an older
estimate-plus-linear-scan implementation.  The binary-search one is embedded
as calculateAdjustment (its while loop becomes the fuelled bisectLoop, with
fuel equal to the initial interval length, which the loop never exhausts
since each iteration strictly shrinks the interval; its final for loop
becomes scanLoop, whose fuel is the exact iteration count of the for loop).
The estimate-based one is embedded as calculateAdjustmentEstimate (its two
for loops become searchExact and searchBest, fuelled by their exact
iteration counts).
-/

namespace TaxFitter

/-- RoundMode from types.ts: rounding policy for the tax amount. -/
inductive RoundMode where
  | floor
  | ceil
  | round
deriving DecidableEq, Repr

/-- AdjustmentParams from types.ts.  roundMode is optional in TypeScript and
defaults to floor at the destructuring in calculateAdjustment, hence Option. -/
structure AdjustmentParams where
  subtotal : Int
  targetTotal : Int
  taxRate : Rat
  roundMode : Option RoundMode
deriving DecidableEq, Repr

/-- AdjustmentResult from types.ts.  The optional error string is an Option. -/
structure AdjustmentResult where
  discount : Int
  isValid : Bool
  adjustedSubtotal : Int
  taxAmount : Int
  finalTotal : Int
  error : Option String
deriving DecidableEq, Repr

/-- applyTax from calculate.ts: tax on an amount at a given rate, rounded by
the given mode.  The TypeScript switch has an unreachable default branch
(RoundMode has exactly the three cases), so the match is total here. -/
def applyTax (amount : Int) (taxRate : Rat) (roundMode : RoundMode) : Int :=
  let taxAmount : Rat := (amount : Rat) * taxRate
  match roundMode with
  | .floor => ⌊taxAmount⌋
  | .ceil => ⌈taxAmount⌉
  | .round => ⌊taxAmount + 1/2⌋

/-- Inner helper calculateTotal of the binary-search calculateAdjustment:
total for a candidate discount, or the sentinel -1 when the discount
overshoots the subtotal. -/
def calculateTotal (subtotal : Int) (taxRate : Rat) (roundMode : RoundMode)
    (discount : Int) : Int :=
  let adjustedSub := subtotal - discount
  if adjustedSub < 0 then -1
  else adjustedSub + applyTax adjustedSub taxRate roundMode

/-- Result of the while loop of the binary-search calculateAdjustment: either
an exact discount (early return) or the loop state when the interval has
collapsed. -/
inductive SearchStep where
  | exact (discount : Int)
  | finish (minDiscount maxDiscount bestDiscount bestDifference : Int)
deriving DecidableEq, Repr

/-- Result of the final for loop of the binary-search calculateAdjustment:
either an exact discount (early return) or the best candidate tracked. -/
inductive ScanStep where
  | exact (discount : Int)
  | finish (bestDiscount bestDifference : Int)
deriving DecidableEq, Repr

/-- While loop of the binary-search calculateAdjustment.  Math.floor of the
real midpoint (minDiscount + maxDiscount) / 2 is floor division, which for
the positive divisor 2 is Int division here.  The fuel only bounds the
number of iterations; callers pass at least the interval length, which the
loop never exhausts because the interval strictly shrinks each iteration. -/
def bisectLoop (subtotal targetTotal : Int) (taxRate : Rat) (roundMode : RoundMode) :
    Nat → Int → Int → Int → Int → SearchStep
  | 0, minDiscount, maxDiscount, bestDiscount, bestDifference =>
      .finish minDiscount maxDiscount bestDiscount bestDifference
  | fuel + 1, minDiscount, maxDiscount, bestDiscount, bestDifference =>
      if 1 < maxDiscount - minDiscount then
        let midDiscount := (minDiscount + maxDiscount) / 2
        let midTotal := calculateTotal subtotal taxRate roundMode midDiscount
        if midTotal = -1 then
          bisectLoop subtotal targetTotal taxRate roundMode fuel
            minDiscount (midDiscount - 1) bestDiscount bestDifference
        else if midTotal = targetTotal then
          .exact midDiscount
        else
          let difference := |midTotal - targetTotal|
          let bestDiscount' := if difference < bestDifference then midDiscount else bestDiscount
          let bestDifference' := if difference < bestDifference then difference else bestDifference
          if targetTotal < midTotal then
            bisectLoop subtotal targetTotal taxRate roundMode fuel
              (midDiscount + 1) maxDiscount bestDiscount' bestDifference'
          else
            bisectLoop subtotal targetTotal taxRate roundMode fuel
              minDiscount (midDiscount - 1) bestDiscount' bestDifference'
      else
        .finish minDiscount maxDiscount bestDiscount bestDifference

/-- Final for loop of the binary-search calculateAdjustment: check every
remaining candidate discount from a starting value, for fuel iterations
(the caller passes the exact iteration count maxDiscount - minDiscount + 1). -/
def scanLoop (subtotal targetTotal : Int) (taxRate : Rat) (roundMode : RoundMode) :
    Nat → Int → Int → Int → ScanStep
  | 0, _, bestDiscount, bestDifference => .finish bestDiscount bestDifference
  | fuel + 1, discount, bestDiscount, bestDifference =>
      let total := calculateTotal subtotal taxRate roundMode discount
      if total = -1 then
        scanLoop subtotal targetTotal taxRate roundMode fuel (discount + 1)
          bestDiscount bestDifference
      else if total = targetTotal then
        .exact discount
      else
        let difference := |total - targetTotal|
        if difference < bestDifference then
          scanLoop subtotal targetTotal taxRate roundMode fuel (discount + 1)
            discount difference
        else
          scanLoop subtotal targetTotal taxRate roundMode fuel (discount + 1)
            bestDiscount bestDifference

/-- calculateAdjustment from the binary-search version of calculate.ts. -/
def calculateAdjustment (params : AdjustmentParams) : AdjustmentResult :=
  let subtotal := params.subtotal
  let targetTotal := params.targetTotal
  let taxRate := params.taxRate
  let roundMode := params.roundMode.getD .floor
  if subtotal < 0 then
    { discount := 0, isValid := false, adjustedSubtotal := subtotal, taxAmount := 0,
      finalTotal := subtotal, error := some "Subtotal cannot be negative" }
  else if taxRate < 0 ∨ 1 < taxRate then
    { discount := 0, isValid := false, adjustedSubtotal := subtotal, taxAmount := 0,
      finalTotal := subtotal, error := some "Tax rate must be between 0 and 1" }
  else
    let currentTax := applyTax subtotal taxRate roundMode
    let currentTotal := subtotal + currentTax
    if currentTotal = targetTotal then
      { discount := 0, isValid := true, adjustedSubtotal := subtotal, taxAmount := currentTax,
        finalTotal := currentTotal, error := none }
    else
      let minDiscount := -subtotal
      let maxDiscount := subtotal
      let bestDifference := |currentTotal - targetTotal|
      match bisectLoop subtotal targetTotal taxRate roundMode
          (maxDiscount - minDiscount).toNat minDiscount maxDiscount 0 bestDifference with
      | .exact midDiscount =>
          let adjustedSubtotal := subtotal - midDiscount
          let taxAmount := applyTax adjustedSubtotal taxRate roundMode
          { discount := midDiscount, isValid := true, adjustedSubtotal := adjustedSubtotal,
            taxAmount := taxAmount, finalTotal := targetTotal, error := none }
      | .finish minD maxD bestD bestDiff =>
          match scanLoop subtotal targetTotal taxRate roundMode
              (maxD - minD + 1).toNat minD bestD bestDiff with
          | .exact discount =>
              let adjustedSubtotal := subtotal - discount
              let taxAmount := applyTax adjustedSubtotal taxRate roundMode
              { discount := discount, isValid := true, adjustedSubtotal := adjustedSubtotal,
                taxAmount := taxAmount, finalTotal := targetTotal, error := none }
          | .finish bestDiscount _ =>
              let adjustedSubtotal := subtotal - bestDiscount
              let taxAmount := applyTax adjustedSubtotal taxRate roundMode
              let finalTotal := adjustedSubtotal + taxAmount
              { discount := bestDiscount, isValid := decide (finalTotal = targetTotal),
                adjustedSubtotal := adjustedSubtotal, taxAmount := taxAmount,
                finalTotal := finalTotal,
                error := if finalTotal = targetTotal then none
                  else some s!"Could not find exact adjustment. Closest total: {finalTotal}, target: {targetTotal}" }

/-- First for loop of the estimate-based calculateAdjustment: scan fuel
consecutive discounts from a starting value for an exact match, skipping
candidates whose adjusted subtotal is negative. -/
def searchExact (subtotal targetTotal : Int) (taxRate : Rat) (roundMode : RoundMode) :
    Nat → Int → Option Int
  | 0, _ => none
  | fuel + 1, testDiscount =>
      let testSubtotal := subtotal - testDiscount
      if testSubtotal < 0 then
        searchExact subtotal targetTotal taxRate roundMode fuel (testDiscount + 1)
      else
        let testTax := applyTax testSubtotal taxRate roundMode
        if testSubtotal + testTax = targetTotal then some testDiscount
        else searchExact subtotal targetTotal taxRate roundMode fuel (testDiscount + 1)

/-- Second for loop of the estimate-based calculateAdjustment: track the
discount with the smallest absolute difference from the target. -/
def searchBest (subtotal targetTotal : Int) (taxRate : Rat) (roundMode : RoundMode) :
    Nat → Int → Int → Int → Int
  | 0, _, bestDiscount, _ => bestDiscount
  | fuel + 1, testDiscount, bestDiscount, bestDifference =>
      let testSubtotal := subtotal - testDiscount
      if testSubtotal < 0 then
        searchBest subtotal targetTotal taxRate roundMode fuel (testDiscount + 1)
          bestDiscount bestDifference
      else
        let testTax := applyTax testSubtotal taxRate roundMode
        let difference := |testSubtotal + testTax - targetTotal|
        if difference < bestDifference then
          searchBest subtotal targetTotal taxRate roundMode fuel (testDiscount + 1)
            testDiscount difference
        else
          searchBest subtotal targetTotal taxRate roundMode fuel (testDiscount + 1)
            bestDiscount bestDifference

/-- calculateAdjustment from the estimate-based version of calculate.ts.
Math.ceil of the integer totalDifference is the identity, so searchRadius is
its absolute value plus 100; both for loops run from initialEstimate -
searchRadius to initialEstimate + searchRadius, 2 * searchRadius + 1
iterations. -/
def calculateAdjustmentEstimate (params : AdjustmentParams) : AdjustmentResult :=
  let subtotal := params.subtotal
  let targetTotal := params.targetTotal
  let taxRate := params.taxRate
  let roundMode := params.roundMode.getD .floor
  if subtotal < 0 then
    { discount := 0, isValid := false, adjustedSubtotal := subtotal, taxAmount := 0,
      finalTotal := subtotal, error := some "Subtotal cannot be negative" }
  else if taxRate < 0 ∨ 1 < taxRate then
    { discount := 0, isValid := false, adjustedSubtotal := subtotal, taxAmount := 0,
      finalTotal := subtotal, error := some "Tax rate must be between 0 and 1" }
  else
    let currentTax := applyTax subtotal taxRate roundMode
    let currentTotal := subtotal + currentTax
    if currentTotal = targetTotal then
      { discount := 0, isValid := true, adjustedSubtotal := subtotal, taxAmount := currentTax,
        finalTotal := currentTotal, error := none }
    else
      let totalDifference := currentTotal - targetTotal
      let initialEstimate := ⌊(totalDifference : Rat) / (1 + taxRate)⌋
      let searchRadius := |totalDifference| + 100
      match searchExact subtotal targetTotal taxRate roundMode
          (2 * searchRadius + 1).toNat (initialEstimate - searchRadius) with
      | some testDiscount =>
          let testSubtotal := subtotal - testDiscount
          let testTax := applyTax testSubtotal taxRate roundMode
          { discount := testDiscount, isValid := true, adjustedSubtotal := testSubtotal,
            taxAmount := testTax, finalTotal := testSubtotal + testTax, error := none }
      | none =>
          let bestDiscount := searchBest subtotal targetTotal taxRate roundMode
            (2 * searchRadius + 1).toNat (initialEstimate - searchRadius)
            0 |currentTotal - targetTotal|
          let adjustedSubtotal := subtotal - bestDiscount
          let taxAmount := applyTax adjustedSubtotal taxRate roundMode
          let finalTotal := adjustedSubtotal + taxAmount
          { discount := bestDiscount, isValid := decide (finalTotal = targetTotal),
            adjustedSubtotal := adjustedSubtotal, taxAmount := taxAmount,
            finalTotal := finalTotal,
            error := if finalTotal = targetTotal then none
              else some s!"Could not find exact adjustment. Closest total: {finalTotal}, target: {targetTotal}" }

/-! ### Properties of the tax primitive -/

/-- applyTax is monotone in its amount argument whenever the rate is
non-negative, for each rounding mode. -/
theorem applyTax_mono {taxRate : Rat} (hr : 0 ≤ taxRate) {a b : Int} (hab : a ≤ b)
    (roundMode : RoundMode) : applyTax a taxRate roundMode ≤ applyTax b taxRate roundMode := by
  have hq : (a : ℚ) * taxRate ≤ (b : ℚ) * taxRate :=
    mul_le_mul_of_nonneg_right (by exact_mod_cast hab) hr
  cases roundMode with
  | floor => exact Int.floor_mono hq
  | ceil => exact Int.ceil_mono hq
  | round => exact Int.floor_mono (add_le_add_right hq (1/2 : ℚ))

/-- applyTax is non-negative on non-negative amounts and rates. -/
theorem applyTax_nonneg {a : Int} {taxRate : Rat} (ha : 0 ≤ a) (hr : 0 ≤ taxRate)
    (roundMode : RoundMode) : 0 ≤ applyTax a taxRate roundMode := by
  have hq : (0 : ℚ) ≤ (a : ℚ) * taxRate := mul_nonneg (by exact_mod_cast ha) hr
  cases roundMode with
  | floor => exact Int.le_floor.2 (by exact_mod_cast hq)
  | ceil => exact Int.ceil_nonneg hq
  | round => exact Int.le_floor.2 (by push_cast; linarith)

/-! ### Properties of the candidate-total helper -/

/-- On discounts not exceeding the subtotal, calculateTotal is the genuine
total, not the sentinel. -/
theorem calculateTotal_eq {subtotal : Int} {taxRate : Rat} {roundMode : RoundMode} {d : Int}
    (hd : d ≤ subtotal) :
    calculateTotal subtotal taxRate roundMode d =
      (subtotal - d) + applyTax (subtotal - d) taxRate roundMode := by
  simp only [calculateTotal]
  rw [if_neg (by omega : ¬ subtotal - d < 0)]

/-- Genuine totals are non-negative (so they never collide with the -1
sentinel) when the rate is non-negative. -/
theorem calculateTotal_nonneg {subtotal : Int} {taxRate : Rat} {roundMode : RoundMode} {d : Int}
    (hr : 0 ≤ taxRate) (hd : d ≤ subtotal) :
    0 ≤ calculateTotal subtotal taxRate roundMode d := by
  rw [calculateTotal_eq hd]
  have := applyTax_nonneg (by omega : (0 : Int) ≤ subtotal - d) hr roundMode
  omega

/-- The candidate total is non-increasing in the discount: more discount can
never raise the final total (rounding plateaus allow ties). -/
theorem calculateTotal_antitone {subtotal : Int} {taxRate : Rat} {roundMode : RoundMode}
    {d₁ d₂ : Int} (hr : 0 ≤ taxRate) (h12 : d₁ ≤ d₂) (h2 : d₂ ≤ subtotal) :
    calculateTotal subtotal taxRate roundMode d₂ ≤ calculateTotal subtotal taxRate roundMode d₁ := by
  rw [calculateTotal_eq h2, calculateTotal_eq (le_trans h12 h2)]
  have := applyTax_mono hr (by omega : subtotal - d₂ ≤ subtotal - d₁) roundMode
  omega

/-! ### Invariants of the bisection loop -/

/-- Invariant of the while loop of the binary-search calculateAdjustment.
Under a non-negative subtotal and a non-negative rate, with enough fuel and a
best-so-far candidate inside the search interval whose difference bounds every
candidate already excluded from the interval: an early .exact return carries a
discount inside the original interval achieving the target exactly, and a
.finish return carries a collapsed interval (length at most 1) together with a
best candidate whose difference bounds every candidate outside it. -/
theorem bisectLoop_spec {subtotal targetTotal : Int} {taxRate : Rat} {roundMode : RoundMode}
    (hr : 0 ≤ taxRate) :
    ∀ (fuel : Nat) (minD maxD bD bDf : Int),
      (maxD - minD).toNat ≤ fuel →
      -subtotal ≤ minD → maxD ≤ subtotal → minD ≤ maxD →
      -subtotal ≤ bD → bD ≤ subtotal →
      bDf = |calculateTotal subtotal taxRate roundMode bD - targetTotal| →
      (∀ d, -subtotal ≤ d → d ≤ subtotal → (d < minD ∨ maxD < d) →
        bDf ≤ |calculateTotal subtotal taxRate roundMode d - targetTotal|) →
      match bisectLoop subtotal targetTotal taxRate roundMode fuel minD maxD bD bDf with
      | .exact d => -subtotal ≤ d ∧ d ≤ subtotal ∧
          calculateTotal subtotal taxRate roundMode d = targetTotal
      | .finish minD' maxD' bD' bDf' =>
          -subtotal ≤ minD' ∧ minD' ≤ maxD' ∧ maxD' ≤ subtotal ∧ maxD' - minD' ≤ 1 ∧
          -subtotal ≤ bD' ∧ bD' ≤ subtotal ∧
          bDf' = |calculateTotal subtotal taxRate roundMode bD' - targetTotal| ∧
          ∀ d, -subtotal ≤ d → d ≤ subtotal → (d < minD' ∨ maxD' < d) →
            bDf' ≤ |calculateTotal subtotal taxRate roundMode d - targetTotal| := by
  intro fuel
  induction fuel with
  | zero =>
      intro minD maxD bD bDf hfuel hminlo hmaxhi hminmax hbdlo hbdhi hbdf hinv
      simp only [bisectLoop]
      exact ⟨hminlo, hminmax, hmaxhi, by omega, hbdlo, hbdhi, hbdf, hinv⟩
  | succ fuel ih =>
      intro minD maxD bD bDf hfuel hminlo hmaxhi hminmax hbdlo hbdhi hbdf hinv
      simp only [bisectLoop]
      by_cases hgt : 1 < maxD - minD
      · rw [if_pos hgt]
        have hm1 : minD < (minD + maxD) / 2 := by omega
        have hm2 : (minD + maxD) / 2 < maxD := by omega
        have hmids : (minD + maxD) / 2 ≤ subtotal := by omega
        have hmidlo : -subtotal ≤ (minD + maxD) / 2 := by omega
        have hTnn : 0 ≤ calculateTotal subtotal taxRate roundMode ((minD + maxD) / 2) :=
          calculateTotal_nonneg hr hmids
        rw [if_neg (by omega :
          ¬ calculateTotal subtotal taxRate roundMode ((minD + maxD) / 2) = -1)]
        by_cases hexact :
            calculateTotal subtotal taxRate roundMode ((minD + maxD) / 2) = targetTotal
        · rw [if_pos hexact]
          exact ⟨hmidlo, hmids, hexact⟩
        · rw [if_neg hexact]
          by_cases hbig :
              targetTotal < calculateTotal subtotal taxRate roundMode ((minD + maxD) / 2)
          · rw [if_pos hbig]
            have hkey : ∀ bDf'' : Int, bDf'' ≤ bDf →
                bDf'' ≤ |calculateTotal subtotal taxRate roundMode ((minD + maxD) / 2) -
                  targetTotal| →
                ∀ d, -subtotal ≤ d → d ≤ subtotal → (d < (minD + maxD) / 2 + 1 ∨ maxD < d) →
                bDf'' ≤ |calculateTotal subtotal taxRate roundMode d - targetTotal| := by
              intro bDf'' hle1 hle2 d hdlo hdhi hdcase
              rcases hdcase with hcase | hcase
              · by_cases hold : d < minD
                · exact le_trans hle1 (hinv d hdlo hdhi (Or.inl hold))
                · have hdmid : d ≤ (minD + maxD) / 2 := by omega
                  have hmono := @calculateTotal_antitone subtotal taxRate roundMode
                    d ((minD + maxD) / 2) hr hdmid hmids
                  rw [abs_of_nonneg (by omega)] at hle2
                  rw [abs_of_nonneg (by omega)]
                  omega
              · exact le_trans hle1 (hinv d hdlo hdhi (Or.inr hcase))
            by_cases hbest :
                |calculateTotal subtotal taxRate roundMode ((minD + maxD) / 2) - targetTotal| <
                  bDf
            · rw [if_pos hbest, if_pos hbest]
              exact ih ((minD + maxD) / 2 + 1) maxD ((minD + maxD) / 2) _
                (by omega) (by omega) hmaxhi (by omega) hmidlo hmids rfl
                (hkey _ (le_of_lt hbest) (le_refl _))
            · rw [if_neg hbest, if_neg hbest]
              exact ih ((minD + maxD) / 2 + 1) maxD bD bDf
                (by omega) (by omega) hmaxhi (by omega) hbdlo hbdhi hbdf
                (hkey _ (le_refl _) (le_of_not_lt hbest))
          · rw [if_neg hbig]
            have hsmall :
                calculateTotal subtotal taxRate roundMode ((minD + maxD) / 2) < targetTotal := by
              omega
            have hkey : ∀ bDf'' : Int, bDf'' ≤ bDf →
                bDf'' ≤ |calculateTotal subtotal taxRate roundMode ((minD + maxD) / 2) -
                  targetTotal| →
                ∀ d, -subtotal ≤ d → d ≤ subtotal → (d < minD ∨ (minD + maxD) / 2 - 1 < d) →
                bDf'' ≤ |calculateTotal subtotal taxRate roundMode d - targetTotal| := by
              intro bDf'' hle1 hle2 d hdlo hdhi hdcase
              rcases hdcase with hcase | hcase
              · exact le_trans hle1 (hinv d hdlo hdhi (Or.inl hcase))
              · have hdmid : (minD + maxD) / 2 ≤ d := by omega
                have hmono := @calculateTotal_antitone subtotal taxRate roundMode
                  ((minD + maxD) / 2) d hr hdmid hdhi
                rw [abs_of_nonpos (by omega)] at hle2
                rw [abs_of_nonpos (by omega)]
                omega
            by_cases hbest :
                |calculateTotal subtotal taxRate roundMode ((minD + maxD) / 2) - targetTotal| <
                  bDf
            · rw [if_pos hbest, if_pos hbest]
              exact ih minD ((minD + maxD) / 2 - 1) ((minD + maxD) / 2) _
                (by omega) hminlo (by omega) (by omega) hmidlo hmids rfl
                (hkey _ (le_of_lt hbest) (le_refl _))
            · rw [if_neg hbest, if_neg hbest]
              exact ih minD ((minD + maxD) / 2 - 1) bD bDf
                (by omega) hminlo (by omega) (by omega) hbdlo hbdhi hbdf
                (hkey _ (le_refl _) (le_of_not_lt hbest))
      · rw [if_neg hgt]
        exact ⟨hminlo, hminmax, hmaxhi, by omega, hbdlo, hbdhi, hbdf, hinv⟩

/-- Invariant of the final for loop of the binary-search calculateAdjustment:
scanning fuel discounts from d0 (all within the valid range), an early .exact
return is an exact match in the scanned range, and a .finish return is a
best candidate no worse than the incoming one and no worse than any scanned
candidate. -/
theorem scanLoop_spec {subtotal targetTotal : Int} {taxRate : Rat} {roundMode : RoundMode}
    (hr : 0 ≤ taxRate) :
    ∀ (fuel : Nat) (d0 bD bDf : Int),
      -subtotal ≤ d0 → d0 + fuel - 1 ≤ subtotal →
      -subtotal ≤ bD → bD ≤ subtotal →
      bDf = |calculateTotal subtotal taxRate roundMode bD - targetTotal| →
      match scanLoop subtotal targetTotal taxRate roundMode fuel d0 bD bDf with
      | .exact d => d0 ≤ d ∧ d < d0 + fuel ∧
          calculateTotal subtotal taxRate roundMode d = targetTotal
      | .finish bD' bDf' =>
          -subtotal ≤ bD' ∧ bD' ≤ subtotal ∧
          bDf' = |calculateTotal subtotal taxRate roundMode bD' - targetTotal| ∧
          bDf' ≤ bDf ∧
          ∀ d, d0 ≤ d → d < d0 + fuel →
            bDf' ≤ |calculateTotal subtotal taxRate roundMode d - targetTotal| := by
  intro fuel
  induction fuel with
  | zero =>
      intro d0 bD bDf hd0lo hd0hi hbdlo hbdhi hbdf
      simp only [scanLoop]
      exact ⟨hbdlo, hbdhi, hbdf, le_refl _, fun d h1 h2 => by omega⟩
  | succ fuel ih =>
      intro d0 bD bDf hd0lo hd0hi hbdlo hbdhi hbdf
      simp only [scanLoop]
      have hd0s : d0 ≤ subtotal := by omega
      have hTnn : 0 ≤ calculateTotal subtotal taxRate roundMode d0 :=
        calculateTotal_nonneg hr hd0s
      rw [if_neg (by omega : ¬ calculateTotal subtotal taxRate roundMode d0 = -1)]
      by_cases hexact : calculateTotal subtotal taxRate roundMode d0 = targetTotal
      · rw [if_pos hexact]
        exact ⟨le_refl _, by omega, hexact⟩
      · rw [if_neg hexact]
        by_cases hbest : |calculateTotal subtotal taxRate roundMode d0 - targetTotal| < bDf
        · rw [if_pos hbest]
          have hres := ih (d0 + 1) d0 _ (by omega) (by omega) hd0lo hd0s rfl
          rcases hsc : scanLoop subtotal targetTotal taxRate roundMode fuel (d0 + 1) d0
              |calculateTotal subtotal taxRate roundMode d0 - targetTotal|
            with d | ⟨bD', bDf'⟩
          · rw [hsc] at hres
            obtain ⟨h1, h2, h3⟩ := hres
            exact ⟨by omega, by omega, h3⟩
          · rw [hsc] at hres
            obtain ⟨h1, h2, h3, h4, h5⟩ := hres
            refine ⟨h1, h2, h3, by omega, fun d hdlo hdhi => ?_⟩
            by_cases hd : d = d0
            · subst hd
              omega
            · exact h5 d (by omega) (by omega)
        · rw [if_neg hbest]
          have hres := ih (d0 + 1) bD bDf (by omega) (by omega) hbdlo hbdhi hbdf
          rcases hsc : scanLoop subtotal targetTotal taxRate roundMode fuel (d0 + 1) bD bDf
            with d | ⟨bD', bDf'⟩
          · rw [hsc] at hres
            obtain ⟨h1, h2, h3⟩ := hres
            exact ⟨by omega, by omega, h3⟩
          · rw [hsc] at hres
            obtain ⟨h1, h2, h3, h4, h5⟩ := hres
            refine ⟨h1, h2, h3, h4, fun d hdlo hdhi => ?_⟩
            by_cases hd : d = d0
            · subst hd
              have := le_of_not_lt hbest
              omega
            · exact h5 d (by omega) (by omega)

/-! ### Master characterization of the binary-search solver -/

/-- Characterization of calculateAdjustment on requests that pass validation:
the returned discount stays in the search interval, all arithmetic fields are
consistent, validity is exactness, an error is present exactly on invalid
outcomes, and the returned final total is closest to the target among all
candidate discounts in the interval. -/
theorem calculateAdjustment_spec (p : AdjustmentParams)
    (hs : 0 ≤ p.subtotal) (hr0 : 0 ≤ p.taxRate) (hr1 : p.taxRate ≤ 1) :
    -p.subtotal ≤ (calculateAdjustment p).discount ∧
    (calculateAdjustment p).discount ≤ p.subtotal ∧
    (calculateAdjustment p).adjustedSubtotal = p.subtotal - (calculateAdjustment p).discount ∧
    (calculateAdjustment p).taxAmount =
      applyTax (calculateAdjustment p).adjustedSubtotal p.taxRate (p.roundMode.getD .floor) ∧
    (calculateAdjustment p).finalTotal =
      (calculateAdjustment p).adjustedSubtotal + (calculateAdjustment p).taxAmount ∧
    ((calculateAdjustment p).isValid = true ↔
      (calculateAdjustment p).finalTotal = p.targetTotal) ∧
    ((calculateAdjustment p).error.isSome ↔ (calculateAdjustment p).isValid = false) ∧
    ∀ d, -p.subtotal ≤ d → d ≤ p.subtotal →
      |(calculateAdjustment p).finalTotal - p.targetTotal| ≤
        |calculateTotal p.subtotal p.taxRate (p.roundMode.getD .floor) d - p.targetTotal| := by
  have hT0 : calculateTotal p.subtotal p.taxRate (p.roundMode.getD .floor) 0 =
      p.subtotal + applyTax p.subtotal p.taxRate (p.roundMode.getD .floor) := by
    rw [calculateTotal_eq hs]
    simp
  simp only [calculateAdjustment]
  rw [if_neg (by omega : ¬ p.subtotal < 0)]
  rw [if_neg (by
    rw [not_or]
    exact ⟨not_lt.2 hr0, not_lt.2 hr1⟩ :
      ¬ (p.taxRate < 0 ∨ 1 < p.taxRate))]
  by_cases hfast : p.subtotal + applyTax p.subtotal p.taxRate (p.roundMode.getD .floor) =
      p.targetTotal
  · rw [if_pos hfast]
    dsimp only
    refine ⟨by omega, by omega, by omega, rfl, rfl, by simpa using hfast, by simp, ?_⟩
    intro d hdlo hdhi
    rw [hfast, sub_self, abs_zero]
    exact abs_nonneg _
  · rw [if_neg hfast]
    have hspec := @bisectLoop_spec p.subtotal p.targetTotal p.taxRate
      (p.roundMode.getD .floor) hr0
      ((p.subtotal - -p.subtotal).toNat) (-p.subtotal) p.subtotal 0
      (|p.subtotal + applyTax p.subtotal p.taxRate (p.roundMode.getD .floor) - p.targetTotal|)
      (le_refl _) (le_refl _) (le_refl _) (by omega) (by omega) hs (by rw [hT0])
      (fun d h1 h2 h3 => by omega)
    rcases hb : bisectLoop p.subtotal p.targetTotal p.taxRate (p.roundMode.getD .floor)
        ((p.subtotal - -p.subtotal).toNat) (-p.subtotal) p.subtotal 0
        (|p.subtotal + applyTax p.subtotal p.taxRate (p.roundMode.getD .floor) - p.targetTotal|)
      with d | ⟨minD', maxD', bD', bDf'⟩
    · rw [hb] at hspec
      dsimp only
      obtain ⟨hd1, hd2, hd3⟩ := hspec
      refine ⟨hd1, hd2, rfl, rfl, ((calculateTotal_eq hd2).symm.trans hd3).symm, by simp, by simp,
        ?_⟩
      intro d' hdlo hdhi
      rw [sub_self, abs_zero]
      exact abs_nonneg _
    · rw [hb] at hspec
      dsimp only
      obtain ⟨hm1, hm2, hm3, hm4, hb1, hb2, hb3, hINV⟩ := hspec
      have hscan := @scanLoop_spec p.subtotal p.targetTotal p.taxRate
        (p.roundMode.getD .floor) hr0
        ((maxD' - minD' + 1).toNat) minD' bD' bDf' hm1 (by omega) hb1 hb2 hb3
      rcases hsc : scanLoop p.subtotal p.targetTotal p.taxRate (p.roundMode.getD .floor)
          ((maxD' - minD' + 1).toNat) minD' bD' bDf'
        with d | ⟨bD2, bDf2⟩
      · rw [hsc] at hscan
        dsimp only
        obtain ⟨hd1, hd2, hd3⟩ := hscan
        have hdlo' : -p.subtotal ≤ d := by omega
        have hdhi' : d ≤ p.subtotal := by omega
        refine ⟨hdlo', hdhi', rfl, rfl, ((calculateTotal_eq hdhi').symm.trans hd3).symm, by simp,
          by simp, ?_⟩
        intro d' h1 h2
        rw [sub_self, abs_zero]
        exact abs_nonneg _
      · rw [hsc] at hscan
        dsimp only
        obtain ⟨hsblo, hsbhi, hsbdf, hsle, hsinv⟩ := hscan
        have hfinal : calculateTotal p.subtotal p.taxRate (p.roundMode.getD .floor) bD2 =
            (p.subtotal - bD2) +
              applyTax (p.subtotal - bD2) p.taxRate (p.roundMode.getD .floor) :=
          calculateTotal_eq hsbhi
        refine ⟨hsblo, hsbhi, rfl, rfl, rfl, by simp, ?_, ?_⟩
        · by_cases hxe : (p.subtotal - bD2) +
              applyTax (p.subtotal - bD2) p.taxRate (p.roundMode.getD .floor) = p.targetTotal
          · simp [hxe]
          · simp [hxe]
        · intro d hdlo hdhi
          rw [← hfinal, ← hsbdf]
          by_cases hin : minD' ≤ d ∧ d ≤ maxD'
          · exact hsinv d hin.1 (by omega)
          · have hout : d < minD' ∨ maxD' < d := by omega
            exact le_trans hsle (hINV d hdlo hdhi hout)

/-! ### Claim theorems -/

/-- C1: optimality of the binary-search solver.  For every request passing
validation, if some integer discount d in the interval from -subtotal to
subtotal makes the adjusted subtotal plus its rounded tax hit targetTotal
exactly, then calculateAdjustment returns a valid outcome with finalTotal
equal to targetTotal; and in every case the returned finalTotal minimizes the
absolute difference to targetTotal over all discounts in that interval. -/
theorem claim1_solver_optimality (p : AdjustmentParams)
    (hs : 0 ≤ p.subtotal) (hr0 : 0 ≤ p.taxRate) (hr1 : p.taxRate ≤ 1) :
    ((∃ d : Int, -p.subtotal ≤ d ∧ d ≤ p.subtotal ∧
        (p.subtotal - d) + applyTax (p.subtotal - d) p.taxRate (p.roundMode.getD .floor) =
          p.targetTotal) →
      (calculateAdjustment p).isValid = true ∧
        (calculateAdjustment p).finalTotal = p.targetTotal) ∧
    (∀ d : Int, -p.subtotal ≤ d → d ≤ p.subtotal →
      |(calculateAdjustment p).finalTotal - p.targetTotal| ≤
        |(p.subtotal - d) + applyTax (p.subtotal - d) p.taxRate (p.roundMode.getD .floor) -
          p.targetTotal|) := by
  obtain ⟨h1, h2, h3, h4, h5, h6, h7, h8⟩ := calculateAdjustment_spec p hs hr0 hr1
  have hmin : ∀ d : Int, -p.subtotal ≤ d → d ≤ p.subtotal →
      |(calculateAdjustment p).finalTotal - p.targetTotal| ≤
        |(p.subtotal - d) + applyTax (p.subtotal - d) p.taxRate (p.roundMode.getD .floor) -
          p.targetTotal| := by
    intro d hdlo hdhi
    have h := h8 d hdlo hdhi
    rwa [calculateTotal_eq hdhi] at h
  refine ⟨?_, hmin⟩
  rintro ⟨d, hdlo, hdhi, hd⟩
  have h0 : |(calculateAdjustment p).finalTotal - p.targetTotal| ≤ 0 := by
    have h := hmin d hdlo hdhi
    rwa [hd, sub_self, abs_zero] at h
  have hfe : (calculateAdjustment p).finalTotal = p.targetTotal := by
    have h00 := le_antisymm h0 (abs_nonneg _)
    rw [abs_eq_zero] at h00
    omega
  exact ⟨h6.2 hfe, hfe⟩

/-- C2 amended: the two implementations agree (with identical outcomes) on
every request rejected by validation and on every request satisfied by the
zero-discount fast path; they are not equivalent in general, as the
counterexample shows. -/
theorem claim2_equivalence_amended (p : AdjustmentParams)
    (h : p.subtotal < 0 ∨ p.taxRate < 0 ∨ 1 < p.taxRate ∨
      p.subtotal + applyTax p.subtotal p.taxRate (p.roundMode.getD .floor) = p.targetTotal) :
    calculateAdjustment p = calculateAdjustmentEstimate p := by
  by_cases h1 : p.subtotal < 0
  · simp only [calculateAdjustment, calculateAdjustmentEstimate]
    rw [if_pos h1, if_pos h1]
  · by_cases h2 : p.taxRate < 0 ∨ 1 < p.taxRate
    · simp only [calculateAdjustment, calculateAdjustmentEstimate]
      rw [if_neg h1, if_neg h1, if_pos h2, if_pos h2]
    · have h3 : p.subtotal + applyTax p.subtotal p.taxRate (p.roundMode.getD .floor) =
          p.targetTotal := by
        rcases h with h | h | h | h
        · exact absurd h h1
        · exact absurd (Or.inl h) h2
        · exact absurd (Or.inr h) h2
        · exact h
      simp only [calculateAdjustment, calculateAdjustmentEstimate]
      rw [if_neg h1, if_neg h1, if_neg h2, if_neg h2, if_pos h3, if_pos h3]

/-- C3 amended: an error is present exactly when isValid is false, for every
outcome; and for every request that passes validation, isValid holds exactly
when finalTotal equals targetTotal.  On validation failures the equivalence
between validity and hitting the target can break, as the counterexample
shows. -/
theorem claim3_validity_amended (p : AdjustmentParams) :
    ((calculateAdjustment p).error.isSome ↔ (calculateAdjustment p).isValid = false) ∧
    (0 ≤ p.subtotal → 0 ≤ p.taxRate → p.taxRate ≤ 1 →
      ((calculateAdjustment p).isValid = true ↔
        (calculateAdjustment p).finalTotal = p.targetTotal)) := by
  constructor
  · by_cases h1 : p.subtotal < 0
    · simp only [calculateAdjustment]
      rw [if_pos h1]
      simp
    · by_cases h2 : p.taxRate < 0 ∨ 1 < p.taxRate
      · simp only [calculateAdjustment]
        rw [if_neg h1, if_pos h2]
        simp
      · push_neg at h2
        exact (calculateAdjustment_spec p (by omega) h2.1 h2.2).2.2.2.2.2.2.1
  · intro hs hr0 hr1
    exact (calculateAdjustment_spec p hs hr0 hr1).2.2.2.2.2.1

/-- C4: monotonicity.  For a non-negative rate, applyTax is non-decreasing in
its amount argument for each rounding mode, and consequently the total as a
function of the discount is non-increasing over the valid interval. -/
theorem claim4_monotonicity (subtotal : Int) (taxRate : Rat) (roundMode : RoundMode)
    (hs : 0 ≤ subtotal) (hr0 : 0 ≤ taxRate) (hr1 : taxRate ≤ 1) :
    (∀ a b : Int, a ≤ b → applyTax a taxRate roundMode ≤ applyTax b taxRate roundMode) ∧
    (∀ d₁ d₂ : Int, -subtotal ≤ d₁ → d₁ ≤ d₂ → d₂ ≤ subtotal →
      (subtotal - d₂) + applyTax (subtotal - d₂) taxRate roundMode ≤
        (subtotal - d₁) + applyTax (subtotal - d₁) taxRate roundMode) := by
  constructor
  · intro a b hab
    exact applyTax_mono hr0 hab roundMode
  · intro d₁ d₂ hd1 hd12 hd2
    have h := applyTax_mono hr0 (by omega : subtotal - d₂ ≤ subtotal - d₁) roundMode
    omega

/-- C5 amended: for the binary-search calculateAdjustment, every validated
request yields a discount in the closed interval from -subtotal to subtotal
(equivalently an adjustedSubtotal between 0 and twice the subtotal), and in
particular the adjusted subtotal is non-negative whenever the outcome is
valid.  The estimate-based implementation does not respect the interval
bound, as the counterexample shows. -/
theorem claim5_bounds_amended (p : AdjustmentParams)
    (hs : 0 ≤ p.subtotal) (hr0 : 0 ≤ p.taxRate) (hr1 : p.taxRate ≤ 1) :
    (-p.subtotal ≤ (calculateAdjustment p).discount ∧
      (calculateAdjustment p).discount ≤ p.subtotal) ∧
    (0 ≤ (calculateAdjustment p).adjustedSubtotal ∧
      (calculateAdjustment p).adjustedSubtotal ≤ 2 * p.subtotal) ∧
    ((calculateAdjustment p).isValid = true → 0 ≤ (calculateAdjustment p).adjustedSubtotal) := by
  obtain ⟨h1, h2, h3, _, _, _, _, _⟩ := calculateAdjustment_spec p hs hr0 hr1
  exact ⟨⟨h1, h2⟩, ⟨by omega, by omega⟩, fun _ => by omega⟩

/-- C6: arithmetic invariant of every outcome of calculateAdjustment, with no
precondition: finalTotal equals adjustedSubtotal plus taxAmount, and
adjustedSubtotal equals subtotal minus discount, on exact-match outcomes,
best-candidate outcomes and validation failures alike. -/
theorem claim6_outcome_invariant (p : AdjustmentParams) :
    (calculateAdjustment p).finalTotal =
      (calculateAdjustment p).adjustedSubtotal + (calculateAdjustment p).taxAmount ∧
    (calculateAdjustment p).adjustedSubtotal = p.subtotal - (calculateAdjustment p).discount := by
  by_cases h1 : p.subtotal < 0
  · simp only [calculateAdjustment]
    rw [if_pos h1]
    dsimp only
    omega
  · by_cases h2 : p.taxRate < 0 ∨ 1 < p.taxRate
    · simp only [calculateAdjustment]
      rw [if_neg h1, if_pos h2]
      dsimp only
      omega
    · push_neg at h2
      obtain ⟨_, _, h3, _, h5, _, _, _⟩ := calculateAdjustment_spec p (by omega) h2.1 h2.2
      exact ⟨h5, h3⟩

/-- C7: fail-fast validation.  A negative subtotal yields the invalid outcome
with the negative-subtotal error and zero-discount echo fields; a subtotal
that is non-negative combined with a tax rate outside the unit interval
yields the invalid outcome with the tax-rate error and the same echo
fields. -/
theorem claim7_fail_fast (p : AdjustmentParams) :
    (p.subtotal < 0 →
      calculateAdjustment p =
        { discount := 0, isValid := false, adjustedSubtotal := p.subtotal, taxAmount := 0,
          finalTotal := p.subtotal, error := some "Subtotal cannot be negative" }) ∧
    (0 ≤ p.subtotal → (p.taxRate < 0 ∨ 1 < p.taxRate) →
      calculateAdjustment p =
        { discount := 0, isValid := false, adjustedSubtotal := p.subtotal, taxAmount := 0,
          finalTotal := p.subtotal, error := some "Tax rate must be between 0 and 1" }) := by
  constructor
  · intro h
    simp only [calculateAdjustment]
    rw [if_pos h]
  · intro h1 h2
    simp only [calculateAdjustment]
    rw [if_neg (by omega : ¬ p.subtotal < 0), if_pos h2]

/-- C10: negative targets are always rejected.  For every validated request
whose targetTotal is negative, calculateAdjustment returns an invalid
outcome: every achievable total over the valid discount range is
non-negative, and the internal -1 sentinel is never reported as an exact
match, even when targetTotal is -1. -/
theorem claim10_negative_target (p : AdjustmentParams)
    (hs : 0 ≤ p.subtotal) (hr0 : 0 ≤ p.taxRate) (hr1 : p.taxRate ≤ 1)
    (ht : p.targetTotal < 0) :
    (calculateAdjustment p).isValid = false := by
  obtain ⟨h1, h2, h3, h4, h5, h6, _, _⟩ := calculateAdjustment_spec p hs hr0 hr1
  by_contra hvalid
  have hvalid' : (calculateAdjustment p).isValid = true := by
    cases h : (calculateAdjustment p).isValid
    · exact absurd h hvalid
    · rfl
  have hft := h6.1 hvalid'
  have hadj : 0 ≤ (calculateAdjustment p).adjustedSubtotal := by omega
  have htax : 0 ≤ (calculateAdjustment p).taxAmount :=
    h4 ▸ applyTax_nonneg hadj hr0 _
  omega

/-! ### Concrete evaluations: worked examples, counterexamples and witnesses.
Batteries marks the rational-number arithmetic irreducible; reducibility is
restored locally so that the kernel can evaluate the solver on concrete
inputs. -/

section ConcreteEvaluation

attribute [local semireducible] Rat.add Rat.mul Rat.sub Rat.inv

set_option maxRecDepth 10000 in
/-- C8: the worked exact-match example.  At subtotal 290000, targetTotal
315000, taxRate 1/10, floor rounding, the solver returns the valid outcome
with discount 3636, adjustedSubtotal 286364, taxAmount 28636 and finalTotal
315000. -/
theorem claim8_worked_example :
    calculateAdjustment ⟨290000, 315000, 1/10, some .floor⟩ =
      { discount := 3636, isValid := true, adjustedSubtotal := 286364, taxAmount := 28636,
        finalTotal := 315000, error := none } := by
  decide

/-- C9: rounding-mode differentiation of the tax primitive at amount 105 and
rate 1/10: floor gives 10, ceil gives 11, and the round mode sends the half
value 10.5 up to 11. -/
theorem claim9_rounding_modes :
    applyTax 105 (1/10) .floor = 10 ∧ applyTax 105 (1/10) .ceil = 11 ∧
      applyTax 105 (1/10) .round = 11 := by
  decide

set_option maxRecDepth 10000 in
/-- C2 counterexample: the binary-search and estimate-based implementations
are not observationally equivalent.  At subtotal 0, targetTotal 5, taxRate 0,
the binary search can only consider discount 0 (finalTotal 0, invalid), while
the estimate-based search window is not clipped below -subtotal and finds
the out-of-interval surcharge -5 (finalTotal 5, valid). -/
theorem claim2_equivalence_counterexample :
    ¬ ((calculateAdjustment ⟨0, 5, 0, some .floor⟩).isValid =
        (calculateAdjustmentEstimate ⟨0, 5, 0, some .floor⟩).isValid ∧
      (calculateAdjustment ⟨0, 5, 0, some .floor⟩).finalTotal =
        (calculateAdjustmentEstimate ⟨0, 5, 0, some .floor⟩).finalTotal) := by
  decide

set_option maxRecDepth 10000 in
/-- C5 counterexample: the estimate-based implementation in the source can
return a discount outside the closed interval from -subtotal to subtotal on a
validated request: at subtotal 0, targetTotal 5, taxRate 0 it returns
discount -5, and adjustedSubtotal 5 exceeds 2 * subtotal = 0. -/
theorem claim5_bounds_counterexample :
    ¬ ((-(0 : Int) ≤ (calculateAdjustmentEstimate ⟨0, 5, 0, some .floor⟩).discount ∧
        (calculateAdjustmentEstimate ⟨0, 5, 0, some .floor⟩).discount ≤ 0) ∧
      (calculateAdjustmentEstimate ⟨0, 5, 0, some .floor⟩).adjustedSubtotal ≤ 2 * 0) := by
  decide

/-- C3 counterexample: on the validation-failure outcome for subtotal -1 with
targetTotal -1, isValid is false while finalTotal does equal targetTotal, so
the claimed equivalence fails on validation-failure outcomes. -/
theorem claim3_validity_counterexample :
    ¬ ((calculateAdjustment ⟨-1, -1, 1/10, some .floor⟩).isValid = true ↔
      (calculateAdjustment ⟨-1, -1, 1/10, some .floor⟩).finalTotal = -1) := by
  decide

/-- Witness for C1 at subtotal 10, targetTotal 11, taxRate 1/10, floor
rounding (discount 0 is an exact match there). -/
theorem claim1_solver_optimality_witness :
    ((∃ d : Int, -(10 : Int) ≤ d ∧ d ≤ 10 ∧
        (10 - d) + applyTax (10 - d) (1/10) .floor = 11) →
      (calculateAdjustment ⟨10, 11, 1/10, some .floor⟩).isValid = true ∧
        (calculateAdjustment ⟨10, 11, 1/10, some .floor⟩).finalTotal = 11) ∧
    (∀ d : Int, -(10 : Int) ≤ d → d ≤ 10 →
      |(calculateAdjustment ⟨10, 11, 1/10, some .floor⟩).finalTotal - 11| ≤
        |(10 - d) + applyTax (10 - d) (1/10) .floor - 11|) :=
  claim1_solver_optimality ⟨10, 11, 1/10, some .floor⟩ (by decide) (by decide) (by decide)

/-- Witness for the amended C2 on a validation-failure input. -/
theorem claim2_equivalence_amended_witness :
    calculateAdjustment ⟨-1, 3, 1/10, some .floor⟩ =
      calculateAdjustmentEstimate ⟨-1, 3, 1/10, some .floor⟩ :=
  claim2_equivalence_amended ⟨-1, 3, 1/10, some .floor⟩ (Or.inl (by decide))

/-- Witness for the amended C3 at subtotal 10, targetTotal 11, taxRate 1/10. -/
theorem claim3_validity_amended_witness :
    ((calculateAdjustment ⟨10, 11, 1/10, some .floor⟩).error.isSome ↔
      (calculateAdjustment ⟨10, 11, 1/10, some .floor⟩).isValid = false) ∧
    ((calculateAdjustment ⟨10, 11, 1/10, some .floor⟩).isValid = true ↔
      (calculateAdjustment ⟨10, 11, 1/10, some .floor⟩).finalTotal = 11) :=
  ⟨(claim3_validity_amended ⟨10, 11, 1/10, some .floor⟩).1,
    (claim3_validity_amended ⟨10, 11, 1/10, some .floor⟩).2 (by decide) (by decide) (by decide)⟩

/-- Witness for C4 at subtotal 10, taxRate 1/10, floor rounding. -/
theorem claim4_monotonicity_witness :
    (∀ a b : Int, a ≤ b → applyTax a (1/10) .floor ≤ applyTax b (1/10) .floor) ∧
    (∀ d₁ d₂ : Int, -(10 : Int) ≤ d₁ → d₁ ≤ d₂ → d₂ ≤ 10 →
      (10 - d₂) + applyTax (10 - d₂) (1/10) .floor ≤
        (10 - d₁) + applyTax (10 - d₁) (1/10) .floor) :=
  claim4_monotonicity 10 (1/10) .floor (by decide) (by decide) (by decide)

/-- Witness for the amended C5 at subtotal 10, targetTotal 11, taxRate 1/10. -/
theorem claim5_bounds_amended_witness :
    (-(10 : Int) ≤ (calculateAdjustment ⟨10, 11, 1/10, some .floor⟩).discount ∧
      (calculateAdjustment ⟨10, 11, 1/10, some .floor⟩).discount ≤ 10) ∧
    (0 ≤ (calculateAdjustment ⟨10, 11, 1/10, some .floor⟩).adjustedSubtotal ∧
      (calculateAdjustment ⟨10, 11, 1/10, some .floor⟩).adjustedSubtotal ≤ 2 * 10) ∧
    ((calculateAdjustment ⟨10, 11, 1/10, some .floor⟩).isValid = true →
      0 ≤ (calculateAdjustment ⟨10, 11, 1/10, some .floor⟩).adjustedSubtotal) :=
  claim5_bounds_amended ⟨10, 11, 1/10, some .floor⟩ (by decide) (by decide) (by decide)

/-- Witness for C7: both validation failures at concrete inputs. -/
theorem claim7_fail_fast_witness :
    calculateAdjustment ⟨-1, 100, 1/10, some .floor⟩ =
      { discount := 0, isValid := false, adjustedSubtotal := -1, taxAmount := 0,
        finalTotal := -1, error := some "Subtotal cannot be negative" } ∧
    calculateAdjustment ⟨100, 100, 2, some .floor⟩ =
      { discount := 0, isValid := false, adjustedSubtotal := 100, taxAmount := 0,
        finalTotal := 100, error := some "Tax rate must be between 0 and 1" } :=
  ⟨(claim7_fail_fast ⟨-1, 100, 1/10, some .floor⟩).1 (by decide),
    (claim7_fail_fast ⟨100, 100, 2, some .floor⟩).2 (by decide) (by decide)⟩

/-- Witness for C10 at subtotal 5, targetTotal -1, taxRate 1/10. -/
theorem claim10_negative_target_witness :
    (calculateAdjustment ⟨5, -1, 1/10, some .floor⟩).isValid = false :=
  claim10_negative_target ⟨5, -1, 1/10, some .floor⟩ (by decide) (by decide) (by decide)
    (by decide)

end ConcreteEvaluation

end TaxFitter
